import Mathlib

/-!
Verification development for the aether device-report generation code.

Embedding conventions:
- XML element trees (Python xml.etree.ElementTree) are modelled by XTree:
  a tag, optional text, and a list of children. find and findtext follow
  ElementTree semantics: findtext returns the element text (with None text
  read as the empty string) when the element is found, and the default
  otherwise.
- Python dicts with string keys and JSON-like values are modelled by JVal;
  dict insertion keeps the original position of an existing key and appends
  new keys (CPython insertion order).
- Wall-clock values (timestamp fields, duration) are environment inputs with
  no behavioural role in any claim; those dict keys are omitted from the
  model.
- Blocking I/O (device open, RPC, close, pub/sub publish) is modelled by
  explicit outcome parameters: a connect outcome and a per-iteration RPC
  outcome oracle. Published events are collected in a list. Logging is
  omitted.
-/

/-- An XML element: tag, optional text, children (ElementTree model). -/
structure XTree where
  tag : String
  text : Option String
  children : List XTree

mutual

/-- All descendants with the given tag, in document order, over a list of
subtrees (the search of findall with a .//tag path). -/
def descAll (tag : String) : List XTree → List XTree
  | [] => []
  | t :: ts => descOne tag t ++ descAll tag ts

/-- Descendant-or-self matches of one subtree, in document order. -/
def descOne (tag : String) : XTree → List XTree
  | ⟨tg, tx, ch⟩ => (if tg = tag then [⟨tg, tx, ch⟩] else []) ++ descAll tag ch

end

/-- findall with a .//tag path from a root element: all proper descendants
with the tag, in document order. -/
def XTree.findall (t : XTree) (tag : String) : List XTree :=
  descAll tag t.children

/-- Direct children with a given tag. -/
def XTree.childrenTagged (t : XTree) (tag : String) : List XTree :=
  t.children.filter (fun c => c.tag == tag)

/-- One step of a relative path: children of any listed element with the tag. -/
def pathStep (ts : List XTree) (tag : String) : List XTree :=
  (ts.map (fun t => t.childrenTagged tag)).flatten

/-- All matches of a relative path such as nh/to, in document order. -/
def XTree.findPath (t : XTree) (path : List String) : List XTree :=
  path.foldl pathStep [t]

/-- ElementTree find: first match of a relative path. -/
def XTree.find1 (t : XTree) (path : List String) : Option XTree :=
  (t.findPath path).head?

/-- ElementTree findtext with a default: the matched element's text (None
text read as the empty string) when found, the default otherwise. -/
def XTree.findtextD (t : XTree) (path : List String) (default : String) : String :=
  match t.find1 path with
  | some e => e.text.getD ""
  | none => default

/-- ElementTree findtext with the default left at None: some (text or "")
when found, none otherwise. -/
def XTree.findtextOpt (t : XTree) (path : List String) : Option String :=
  match t.find1 path with
  | some e => some (e.text.getD "")
  | none => none

/-- The pattern elem.find(tag) followed by elem.text if present else None:
the raw optional text of the first matching element. -/
def XTree.findRawText (t : XTree) (path : List String) : Option String :=
  (t.find1 path).bind (fun e => e.text)

/-- The Python str.strip(): whitespace removed from both ends, computed on
the character list so that it evaluates by reduction. -/
def String.strip (s : String) : String :=
  ⟨((s.data.dropWhile Char.isWhitespace).reverse.dropWhile Char.isWhitespace).reverse⟩

/-- The Python idiom int(s) if s.isdigit() else 0. -/
def pyDigitsToNat (s : String) : Nat :=
  if s.data ≠ [] ∧ s.data.all Char.isDigit then
    s.data.foldl (fun acc c => acc * 10 + (c.toNat - 48)) 0
  else 0

/-- JSON-like values: the payloads of the Python dicts the code builds. -/
inductive JVal where
  | s (v : String)
  | n (v : Nat)
  | b (v : Bool)
  | null
  | arr (items : List JVal)
  | obj (fields : List (String × JVal))

/-- An optional string rendered as a JSON value (None becomes null). -/
def jOptS : Option String → JVal
  | some v => .s v
  | none => .null

/-- Python dict insertion: update an existing key in place, else append. -/
def dictInsert {α : Type} (d : List (String × α)) (k : String) (v : α) :
    List (String × α) :=
  match d with
  | [] => [(k, v)]
  | (k', v') :: rest =>
      if k' = k then (k, v) :: rest else (k', v') :: dictInsert rest k v

mutual

/-- A plain serialization of an element tree: the model of ET.tostring. -/
def xmlStr : XTree → String
  | ⟨tg, tx, ch⟩ => "<" ++ tg ++ ">" ++ tx.getD "" ++ xmlStrList ch ++ "</" ++ tg ++ ">"

/-- Serialization of a child list, in order. -/
def xmlStrList : List XTree → String
  | [] => ""
  | t :: ts => xmlStr t ++ xmlStrList ts

end

/-- Device facts as resolved by PyEZ: a string-keyed dict. -/
abbrev Facts := List (String × String)

/-- The Python idiom facts.get(key, default). -/
def factGet (f : Facts) (k d : String) : String := (f.lookup k).getD d

/-- Outcome of one RPC invocation: a canonical response tree, an RpcError
(caught separately in the source), or any other exception. -/
inductive RpcOutcome where
  | success (tree : XTree)
  | rpcError (msg : String)
  | otherError (msg : String)

namespace ReportsService

/-- One entry of the service-side REPORT_TYPES table
(app_gateway/services/reports_service.py). -/
structure SvcReportDef where
  id : String
  name : String
  rpc : String
  rpc_args : List (String × JVal) := []
  timeout : Nat

/-- The service-side report type table, keyed by report type id. -/
def REPORT_TYPES : List (String × SvcReportDef) :=
  [ ("device_os", ⟨"device_os", "Device OS", "get-software-information", [], 30⟩),
    ("interfaces", ⟨"interfaces", "Interfaces", "get-interface-information", [], 45⟩),
    ("interfaces_stats", ⟨"interfaces_stats", "Interface Statistics",
      "get-interface-information", [("extensive", .b true)], 60⟩),
    ("ospf", ⟨"ospf", "OSPF", "get-ospf-neighbor-information", [], 30⟩),
    ("bgp", ⟨"bgp", "BGP", "get-bgp-summary-information", [], 30⟩),
    ("routes", ⟨"routes", "Routes", "get-route-information", [], 45⟩),
    ("ldp", ⟨"ldp", "LDP", "get-ldp-session-information", [], 30⟩),
    ("mpls", ⟨"mpls", "MPLS LSPs", "get-mpls-lsp-information", [], 30⟩),
    ("rsvp", ⟨"rsvp", "RSVP", "get-rsvp-session-information", [], 30⟩) ]

/-- Parse device OS information (service variant): find_text returns the
element text, which may itself be None. -/
def parse_device_os (root : XTree) : JVal :=
  .obj [("software_information", .obj
      [ ("hostname", jOptS (root.findRawText ["host-name"])),
        ("model", jOptS (root.findRawText ["product-model"])),
        ("version", jOptS (root.findRawText ["junos-version"])),
        ("serial_number", jOptS (root.findRawText ["serial-number"])) ]),
    ("format", .s "structured")]

/-- One logical-interface row of the service interface parser; skipped when
the name element is absent. -/
def svcLogicalRow (l : XTree) : Option JVal :=
  match l.find1 ["name"] with
  | none => none
  | some ln => some (.obj
      [ ("name", jOptS ln.text),
        ("description", jOptS (l.findtextOpt ["description"])) ])

/-- One physical-interface row of the service interface parser; skipped when
the name element is absent or its text is falsy. -/
def svcInterfaceRow (itf : XTree) : Option JVal :=
  match itf.find1 ["name"] with
  | none => none
  | some ne =>
    match ne.text with
    | none => none
    | some nm =>
      if nm = "" then none
      else
        let logicals := (itf.findall "logical-interface").filterMap svcLogicalRow
        some (.obj (
          [ ("name", .s nm),
            ("admin_status", jOptS (itf.findtextOpt ["admin-status"])),
            ("oper_status", jOptS (itf.findtextOpt ["oper-status"])),
            ("description", jOptS (itf.findtextOpt ["description"])),
            ("mtu", jOptS (itf.findtextOpt ["mtu"])),
            ("speed", jOptS (itf.findtextOpt ["speed"])),
            ("mac_address", jOptS (itf.findtextOpt ["mac-address"])) ]
          ++ (if logicals.isEmpty then [] else [("logical_interfaces", .arr logicals)])))

/-- Parse interface information (service variant). -/
def parse_interfaces (root : XTree) : JVal :=
  let interfaces := (root.findall "physical-interface").filterMap svcInterfaceRow
  .obj [ ("interfaces", .arr interfaces),
         ("total_count", .n interfaces.length),
         ("format", .s "structured") ]

/-- Parse OSPF neighbor information (service variant). -/
def parse_ospf (root : XTree) : JVal :=
  let neighbors := (root.findall "ospf-neighbor").map (fun nb => JVal.obj
    [ ("neighbor_id", jOptS (nb.findtextOpt ["neighbor-id"])),
      ("interface", jOptS (nb.findtextOpt ["interface-name"])),
      ("state", jOptS (nb.findtextOpt ["ospf-neighbor-state"])),
      ("priority", jOptS (nb.findtextOpt ["neighbor-priority"])),
      ("dead_time", jOptS (nb.findtextOpt ["neighbor-dead-time"])) ])
  .obj [ ("ospf_neighbors", .arr neighbors),
         ("total_count", .n neighbors.length),
         ("format", .s "structured") ]

/-- Parse BGP summary information (service variant). -/
def parse_bgp (root : XTree) : JVal :=
  let peers := (root.findall "bgp-peer").map (fun peer => JVal.obj
    [ ("peer_address", jOptS (peer.findtextOpt ["peer-address"])),
      ("peer_as", jOptS (peer.findtextOpt ["peer-as"])),
      ("state", jOptS (peer.findtextOpt ["peer-state"])),
      ("flaps", jOptS (peer.findtextOpt ["flap-count"])),
      ("uptime", jOptS (peer.findtextOpt ["elapsed-time"])) ])
  .obj [ ("bgp_peers", .arr peers),
         ("total_count", .n peers.length),
         ("format", .s "structured") ]

/-- Parse routing table information (service variant): enumerates every
route element with no bound, and reports the list length as total_count. -/
def parse_routes (root : XTree) : JVal :=
  let routes := (root.findall "route").map (fun rt => JVal.obj
    [ ("destination", jOptS (rt.findtextOpt ["destination-destination"])),
      ("protocol", jOptS (rt.findtextOpt ["protocol-name"])),
      ("age", jOptS (rt.findtextOpt ["age"])),
      ("next_hop", jOptS (rt.findtextOpt ["next-hop"])) ])
  .obj [ ("routes", .arr routes),
         ("total_count", .n routes.length),
         ("format", .s "structured") ]

/-- Parse LDP session information (service variant). -/
def parse_ldp (root : XTree) : JVal :=
  let sessions := (root.findall "ldp-session").map (fun ss => JVal.obj
    [ ("ldp_id", jOptS (ss.findtextOpt ["ldp-neighbor-id"])),
      ("state", jOptS (ss.findtextOpt ["ldp-session-state"])),
      ("uptime", jOptS (ss.findtextOpt ["uptime"])),
      ("interface", jOptS (ss.findtextOpt ["interface-name"])) ])
  .obj [ ("ldp_sessions", .arr sessions),
         ("total_count", .n sessions.length),
         ("format", .s "structured") ]

/-- Parse MPLS LSP information (service variant). -/
def parse_mpls (root : XTree) : JVal :=
  let lsps := (root.findall "mpls-lsp").map (fun lsp => JVal.obj
    [ ("name", jOptS (lsp.findtextOpt ["lsp-name"])),
      ("state", jOptS (lsp.findtextOpt ["lsp-state"])),
      ("path_type", jOptS (lsp.findtextOpt ["lsp-path-type"])),
      ("uptime", jOptS (lsp.findtextOpt ["uptime"])) ])
  .obj [ ("mpls_lsps", .arr lsps),
         ("total_count", .n lsps.length),
         ("format", .s "structured") ]

/-- Parse RSVP session information (service variant). -/
def parse_rsvp (root : XTree) : JVal :=
  let sessions := (root.findall "rsvp-session").map (fun ss => JVal.obj
    [ ("destination", jOptS (ss.findtextOpt ["destination-address"])),
      ("state", jOptS (ss.findtextOpt ["session-state"])),
      ("uptime", jOptS (ss.findtextOpt ["uptime"])),
      ("name", jOptS (ss.findtextOpt ["session-name"])) ])
  .obj [ ("rsvp_sessions", .arr sessions),
         ("total_count", .n sessions.length),
         ("format", .s "structured") ]

/-- Dispatch of parse_rpc_response on the report type string. The
tostring/fromstring round trip of the source is the identity here, so the
outer try never fails and the unknown-type branch returns the raw XML. -/
def parse_rpc_response (rpc_response : XTree) (report_type : String) : JVal :=
  if report_type = "device_os" then parse_device_os rpc_response
  else if report_type = "interfaces" ∨ report_type = "interfaces_stats" then
    parse_interfaces rpc_response
  else if report_type = "ospf" then parse_ospf rpc_response
  else if report_type = "bgp" then parse_bgp rpc_response
  else if report_type = "routes" then parse_routes rpc_response
  else if report_type = "ldp" then parse_ldp rpc_response
  else if report_type = "mpls" then parse_mpls rpc_response
  else if report_type = "rsvp" then parse_rsvp rpc_response
  else .obj [("raw_xml", .s (xmlStr rpc_response)), ("format", .s "xml")]

/-- One per-report-type result dict. Optional fields model dict keys that
are present only on one of the success/error shapes; the timestamp key is a
wall-clock environment input and is omitted. -/
structure ReportResult where
  status : String
  name : Option String := none
  description : Option String := none
  rpc : Option String := none
  data : Option JVal := none
  error : Option String := none

/-- A dict field that is present only when the value is some. -/
def optField (k : String) : Option JVal → List (String × JVal)
  | some v => [(k, v)]
  | none => []

/-- The result dict as a JSON value, in the source's key order. -/
def ReportResult.toJVal (r : ReportResult) : JVal :=
  .obj ([("status", .s r.status)]
    ++ optField "name" (r.name.map JVal.s)
    ++ optField "description" (r.description.map JVal.s)
    ++ optField "rpc" (r.rpc.map JVal.s)
    ++ optField "data" r.data
    ++ optField "error" (r.error.map JVal.s))

/-- A published progress event: event type, job id, the optional top-level
status key (present only on the finished event), and the data dict. -/
structure Event where
  event_type : String
  job_id : String
  status : Option String := none
  data : JVal

/-- The Redis channel the job's events are published to
(reports_service.py line 111). -/
def wsChannelOf (job_id : String) : String := "ws_channel:job:" ++ job_id

/-- The connecting status event (progress 5). -/
def connectingEvent (job_id hostname : String) : Event :=
  ⟨"status", job_id, none, .obj
    [ ("step", .s "connecting"),
      ("message", .s ("Connecting to device " ++ hostname ++ " using PyEZ...")),
      ("progress", .n 5) ]⟩

/-- The device_info dict built from the cached facts. -/
def deviceInfo (facts : Facts) (hostname : String) : JVal :=
  .obj [ ("model", .s (factGet facts "model" "Unknown")),
         ("version", .s (factGet facts "version" "Unknown")),
         ("serial", .s (factGet facts "serialnumber" "Unknown")),
         ("hostname", .s (factGet facts "hostname" hostname)) ]

/-- The connected status event (progress 10) with the device info payload. -/
def connectedEvent (job_id hostname : String) (facts : Facts) : Event :=
  ⟨"status", job_id, none, .obj
    [ ("step", .s "connected"),
      ("message", .s ("Successfully connected to " ++ hostname ++ " ("
        ++ factGet facts "model" "Unknown" ++ " - "
        ++ factGet facts "version" "Unknown" ++ ")")),
      ("progress", .n 10),
      ("device_info", deviceInfo facts hostname) ]⟩

/-- The generating_report status event for one report type. -/
def generatingEvent (job_id report_type rname : String) (progress : Nat) : Event :=
  ⟨"status", job_id, none, .obj
    [ ("step", .s "generating_report"),
      ("message", .s ("Generating " ++ rname ++ " report...")),
      ("report_type", .s report_type),
      ("progress", .n progress) ]⟩

/-- The per-report REPORT_COMPLETE event emitted after a success. -/
def reportCompleteEvent (job_id report_type rname : String) (progress : Nat) : Event :=
  ⟨"REPORT_COMPLETE", job_id, none, .obj
    [ ("report_type", .s report_type),
      ("report_name", .s rname),
      ("status", .s "success"),
      ("progress", .n progress) ]⟩

/-- The finalizing status event (progress 90). -/
def finalizingEvent (job_id : String) : Event :=
  ⟨"status", job_id, none, .obj
    [ ("step", .s "finalizing"),
      ("message", .s "Finalizing report generation..."),
      ("progress", .n 90) ]⟩

/-- The final aggregate results dict (job_id, hostname, device_info,
reports, summary; wall-clock keys omitted). -/
def finalResults (job_id hostname : String) (facts : Facts)
    (results : List (String × ReportResult)) (total succ fail : Nat) : JVal :=
  .obj [ ("job_id", .s job_id),
         ("hostname", .s hostname),
         ("device_info", deviceInfo facts hostname),
         ("reports", .obj (results.map (fun kv => (kv.1, kv.2.toJVal)))),
         ("summary", .obj [ ("total", .n total), ("successful", .n succ),
                            ("failed", .n fail) ]) ]

/-- The terminal REPORT_COMPLETE event carrying the aggregate results. -/
def finalCompleteEvent (job_id : String) (final : JVal) : Event :=
  ⟨"REPORT_COMPLETE", job_id, none, final⟩

/-- The finished status event (progress 100, top-level status finished). -/
def finishedEvent (job_id : String) (succ total : Nat) : Event :=
  ⟨"status", job_id, some "finished", .obj
    [ ("step", .s "complete"),
      ("message", .s ("Report generation complete. Generated "
        ++ toString succ ++ " of " ++ toString total ++ " reports.")),
      ("progress", .n 100) ]⟩

/-- The error event of the outer exception handler: no progress key. -/
def errorEvent (job_id msg : String) : Event :=
  ⟨"error", job_id, none, .obj
    [ ("step", .s "error"),
      ("message", .s ("Report generation failed: " ++ msg)),
      ("error", .s msg) ]⟩

/-- The error result recorded for a requested id missing from the table. -/
def unknownResult (report_type : String) : ReportResult :=
  { status := "error", error := some ("Unknown report type: " ++ report_type) }

/-- The success result for one report type. The source reads the
description with REPORT_TYPES.get(id).get(description, empty); no service
table entry carries a description key, so it is always the empty string. -/
def successResult (cfg : SvcReportDef) (report_type : String) (tree : XTree) :
    ReportResult :=
  { status := "success", name := some cfg.name, description := some "",
    rpc := some cfg.rpc, data := some (parse_rpc_response tree report_type) }

/-- The error result recorded when the RPC raises RpcError. -/
def rpcErrorResult (msg : String) : ReportResult :=
  { status := "error", error := some ("RPC Error: " ++ msg) }

/-- The error result recorded when any other exception is caught in the
per-report handler. -/
def otherErrorResult (msg : String) : ReportResult :=
  { status := "error", error := some msg }

/-- The progress value of iteration index i out of n (source line 182). -/
def loopProgress (n i : Nat) : Nat := 10 + ((i + 1) * 70) / n

/-- The per-report-type loop of execute_report_generation: walks the
requested ids with their enumeration index, records one result per id
(unknown ids get an error entry and emit no event), and never aborts on a
failed RPC. Returns the emitted events and the final result mapping. -/
def reportLoop (job_id : String) (n : Nat) (exec : Nat → RpcOutcome) :
    Nat → List String → List (String × ReportResult) →
    List Event × List (String × ReportResult)
  | _, [], results => ([], results)
  | i, t :: ts, results =>
    match REPORT_TYPES.lookup t with
    | none =>
        reportLoop job_id n exec (i + 1) ts (dictInsert results t (unknownResult t))
    | some cfg =>
        let p := loopProgress n i
        match exec i with
        | .success tree =>
            let rest := reportLoop job_id n exec (i + 1) ts
              (dictInsert results t (successResult cfg t tree))
            (generatingEvent job_id t cfg.name p
              :: reportCompleteEvent job_id t cfg.name p :: rest.1, rest.2)
        | .rpcError m =>
            let rest := reportLoop job_id n exec (i + 1) ts
              (dictInsert results t (rpcErrorResult m))
            (generatingEvent job_id t cfg.name p :: rest.1, rest.2)
        | .otherError m =>
            let rest := reportLoop job_id n exec (i + 1) ts
              (dictInsert results t (otherErrorResult m))
            (generatingEvent job_id t cfg.name p :: rest.1, rest.2)

/-- Count of results whose status is success. -/
def countSuccess (results : List (String × ReportResult)) : Nat :=
  (results.filter (fun kv => kv.2.status == "success")).length

/-- Count of results whose status is error. -/
def countError (results : List (String × ReportResult)) : Nat :=
  (results.filter (fun kv => kv.2.status == "error")).length

/-- Terminal state of one job run. -/
inductive JobState where
  | completed
  | failed
deriving DecidableEq

/-- Observable outcome of one job run: the publish channel, the events in
publish order, the result mapping, the final summary (present on
completion), the terminal state, whether the session was opened, and how
many times close was invoked. -/
structure JobOutcome where
  channel : String
  events : List Event
  results : List (String × ReportResult)
  summary : Option (Nat × Nat × Nat)
  state : JobState
  opened : Bool
  closeCalls : Nat

/-- The job orchestrator execute_report_generation. The connect parameter
is the outcome of the session open plus fact resolution; exec is the RPC
outcome of each loop iteration. A connect failure raises, is caught by the
outer handler (error event, Failed), and the finally block always invokes
close once on the constructed device object. -/
def execute_report_generation (job_id hostname : String)
    (connect : Except String Facts) (exec : Nat → RpcOutcome)
    (report_types : List String) : JobOutcome :=
  let ch := wsChannelOf job_id
  let total := report_types.length
  match connect with
  | .error e =>
      { channel := ch,
        events := [connectingEvent job_id hostname,
          errorEvent job_id ("Failed to connect to device: " ++ e)],
        results := [], summary := none, state := .failed,
        opened := false, closeCalls := 1 }
  | .ok facts =>
      let lp := reportLoop job_id total exec 0 report_types []
      let succ := countSuccess lp.2
      let fail := countError lp.2
      { channel := ch,
        events := connectingEvent job_id hostname
          :: connectedEvent job_id hostname facts
          :: lp.1
          ++ [ finalizingEvent job_id,
               finalCompleteEvent job_id
                 (finalResults job_id hostname facts lp.2 total succ fail),
               finishedEvent job_id succ total ],
        results := lp.2, summary := some (total, succ, fail),
        state := .completed, opened := true, closeCalls := 1 }

end ReportsService

namespace ReportGenerator

/-- One entry of the frontend REPORT_REGISTRY
(frontend/reports_generator/report_generator.py). -/
structure FeReportDef where
  name : String
  description : String
  category : String
  rpc : String
  rpc_args : List (String × JVal) := []
  timeout : Nat
  parser : String

/-- The frontend report registry, keyed by report type id. -/
def REPORT_REGISTRY : List (String × FeReportDef) :=
  [ ("device_os", ⟨"Device OS", "Operating system version and hardware information",
      "System", "get-software-information", [], 30, "parse_device_os"⟩),
    ("interfaces", ⟨"Interfaces", "Interface status and configuration summary",
      "Interfaces", "get-interface-information", [], 45, "parse_interfaces"⟩),
    ("interfaces_stats", ⟨"Interface Statistics",
      "Detailed interface statistics and error counters", "Interfaces",
      "get-interface-information", [("extensive", .b true)], 60, "parse_interfaces"⟩),
    ("ospf", ⟨"OSPF", "OSPF protocol status and neighbor information",
      "Protocols", "get-ospf-neighbor-information", [], 30, "parse_ospf"⟩),
    ("bgp", ⟨"BGP", "BGP protocol status and peer information",
      "Protocols", "get-bgp-summary-information", [], 30, "parse_bgp"⟩),
    ("routes", ⟨"Routes", "Routing table information",
      "Protocols", "get-route-information", [], 45, "parse_routes"⟩),
    ("ldp", ⟨"LDP", "LDP label distribution sessions",
      "MPLS", "get-ldp-session-information", [], 30, "parse_ldp"⟩),
    ("mpls", ⟨"MPLS LSPs", "MPLS label-switched path status",
      "MPLS", "get-mpls-lsp-information", [], 30, "parse_mpls"⟩),
    ("rsvp", ⟨"RSVP", "RSVP signaling sessions",
      "MPLS", "get-rsvp-session-information", [], 30, "parse_rsvp"⟩) ]

/-- The frontend find_text helper of parse_device_os: findtext with a
default, then strip if the value is truthy else the default. -/
def feFindText (t : XTree) (tag default : String) : String :=
  let v := t.findtextD [tag] default
  if v = "" then default else v.strip

/-- Parse device OS information (frontend variant): every field defaults to
Unknown. Total. -/
def parse_device_os (root : XTree) : JVal :=
  .obj [("software_information", .obj
      [ ("hostname", .s (feFindText root "host-name" "Unknown")),
        ("model", .s (feFindText root "product-model" "Unknown")),
        ("version", .s (feFindText root "junos-version" "Unknown")),
        ("serial_number", .s (feFindText root "serial-number" "Unknown")) ]),
    ("format", .s "structured")]

/-- The Python value.strip() on an optional text: raises AttributeError
when the text is None (an empty XML element). -/
def pyStrip : Option String → Except String String
  | some v => .ok v.strip
  | none => .error "AttributeError: NoneType object has no attribute strip"

/-- One logical-interface row of the frontend interface parser: the name
element's raw text is stripped without a None guard, so an empty name
element raises. -/
def feLogicalRow (l : XTree) : Except String (Option JVal) :=
  match l.find1 ["name"] with
  | none => .ok (none)
  | some ln => do
      let nm ← pyStrip ln.text
      .ok (some (.obj
        [ ("name", .s nm),
          ("description", .s (l.findtextD ["description"] "").strip) ]))

/-- The logical-interface loop, in document order, stopping at the first
raised exception. -/
def feLogicalRows : List XTree → Except String (List JVal)
  | [] => .ok []
  | l :: ls => do
      let row ← feLogicalRow l
      let rest ← feLogicalRows ls
      match row with
      | some r => .ok (r :: rest)
      | none => .ok rest

/-- One physical-interface row of the frontend interface parser; rows with
a missing or falsy name are skipped; the logical sub-loop may raise. -/
def feInterfaceRow (itf : XTree) : Except String (Option JVal) :=
  match itf.find1 ["name"] with
  | none => .ok none
  | some ne =>
    match ne.text with
    | none => .ok none
    | some nm =>
      if nm = "" then .ok none
      else do
        let logicals ← feLogicalRows (itf.findall "logical-interface")
        .ok (some (.obj (
          [ ("name", .s nm.strip),
            ("admin_status", .s (itf.findtextD ["admin-status"] "Unknown").strip),
            ("oper_status", .s (itf.findtextD ["oper-status"] "Unknown").strip),
            ("description", .s (itf.findtextD ["description"] "").strip),
            ("mtu", .s (itf.findtextD ["mtu"] "Unknown").strip),
            ("speed", .s (itf.findtextD ["speed"] "Unknown").strip),
            ("mac_address", .s (itf.findtextD ["mac-address"] "Unknown").strip) ]
          ++ (if logicals.isEmpty then []
              else [("logical_interfaces", .arr logicals)]))))

/-- The physical-interface loop, in document order. -/
def feInterfaceRows : List XTree → Except String (List JVal)
  | [] => .ok []
  | t :: ts => do
      let row ← feInterfaceRow t
      let rest ← feInterfaceRows ts
      match row with
      | some r => .ok (r :: rest)
      | none => .ok rest

/-- Parse interface information (frontend variant). Not total: the
logical-interface name handling can raise. -/
def parse_interfaces (root : XTree) : Except String JVal := do
  let interfaces ← feInterfaceRows (root.findall "physical-interface")
  .ok (.obj [ ("interfaces", .arr interfaces),
              ("total_count", .n interfaces.length),
              ("format", .s "structured") ])

/-- Parse OSPF neighbor information (frontend variant). Total. -/
def parse_ospf (root : XTree) : JVal :=
  let neighbors := (root.findall "ospf-neighbor").map (fun nb => JVal.obj
    [ ("neighbor_id", .s (nb.findtextD ["neighbor-id"] "Unknown").strip),
      ("interface", .s (nb.findtextD ["interface-name"] "Unknown").strip),
      ("state", .s (nb.findtextD ["ospf-neighbor-state"] "Unknown").strip),
      ("priority", .s (nb.findtextD ["neighbor-priority"] "Unknown").strip),
      ("dead_time", .s (nb.findtextD ["neighbor-dead-time"] "Unknown").strip),
      ("adjacency_state", .s (nb.findtextD ["adjacency-state"] "Unknown").strip) ])
  .obj [ ("ospf_neighbors", .arr neighbors),
         ("total_count", .n neighbors.length),
         ("format", .s "structured") ]

/-- Parse BGP summary information (frontend variant). Total. -/
def parse_bgp (root : XTree) : JVal :=
  let peers := (root.findall "bgp-peer").map (fun peer => JVal.obj
    [ ("peer_address", .s (peer.findtextD ["peer-address"] "Unknown").strip),
      ("peer_as", .s (peer.findtextD ["peer-as"] "Unknown").strip),
      ("state", .s (peer.findtextD ["peer-state"] "Unknown").strip),
      ("flaps", .s (peer.findtextD ["flap-count"] "0").strip),
      ("uptime", .s (peer.findtextD ["elapsed-time"] "Unknown").strip),
      ("input_messages", .s (peer.findtextD ["input-messages"] "0").strip),
      ("output_messages", .s (peer.findtextD ["output-messages"] "0").strip) ])
  .obj [ ("bgp_peers", .arr peers),
         ("total_count", .n peers.length),
         ("format", .s "structured") ]

/-- One summary row of the routing-table parser (frontend). -/
def feRouteTableRow (tb : XTree) : String × Nat × Nat :=
  ( (tb.findtextD ["table-name"] "Unknown").strip,
    pyDigitsToNat (tb.findtextD ["destination-count"] "0").strip,
    pyDigitsToNat (tb.findtextD ["route-count"] "0").strip )

/-- One enumerated route row of the routing-table parser (frontend). -/
def feRouteRow (rt : XTree) : JVal :=
  .obj [ ("destination", .s (rt.findtextD ["rt-destination"] "Unknown").strip),
         ("protocol", .s (rt.findtextD ["protocol-name"] "Unknown").strip),
         ("age", .s (rt.findtextD ["age"] "Unknown").strip),
         ("next_hop", .s (rt.findtextD ["nh", "to"] "Unknown").strip),
         ("preference", .s (rt.findtextD ["preference"] "Unknown").strip) ]

/-- Parse routing table information (frontend variant): summary rows from
the route-table elements, the enumerated rt-entry list capped at the first
100 rows, and total_routes summed from the summary route-count fields.
Total. -/
def parse_routes (root : XTree) : JVal :=
  let tables := (root.findall "route-table").map feRouteTableRow
  let routes := ((root.findall "rt-entry").take 100).map feRouteRow
  .obj [ ("route_tables", .arr (tables.map (fun tb => JVal.obj
           [ ("table_name", .s tb.1),
             ("destinations", .n tb.2.1),
             ("total_routes", .n tb.2.2) ]))),
         ("routes", .arr routes),
         ("total_routes", .n ((tables.map (fun tb => tb.2.2)).sum)),
         ("format", .s "structured") ]

/-- Parse LDP session information (frontend variant). Total. -/
def parse_ldp (root : XTree) : JVal :=
  let sessions := (root.findall "ldp-session").map (fun ss => JVal.obj
    [ ("ldp_id", .s (ss.findtextD ["ldp-neighbor-id"] "Unknown").strip),
      ("state", .s (ss.findtextD ["ldp-session-state"] "Unknown").strip),
      ("uptime", .s (ss.findtextD ["uptime"] "Unknown").strip),
      ("interface", .s (ss.findtextD ["interface-name"] "Unknown").strip),
      ("connection_state", .s (ss.findtextD ["connection-state"] "Unknown").strip) ])
  .obj [ ("ldp_sessions", .arr sessions),
         ("total_count", .n sessions.length),
         ("format", .s "structured") ]

/-- Parse MPLS LSP information (frontend variant). Total. -/
def parse_mpls (root : XTree) : JVal :=
  let lsps := (root.findall "mpls-lsp").map (fun lsp => JVal.obj
    [ ("name", .s (lsp.findtextD ["lsp-name"] "Unknown").strip),
      ("state", .s (lsp.findtextD ["lsp-state"] "Unknown").strip),
      ("path_type", .s (lsp.findtextD ["lsp-path-type"] "Unknown").strip),
      ("uptime", .s (lsp.findtextD ["uptime"] "Unknown").strip),
      ("destination", .s (lsp.findtextD ["lsp-dst"] "Unknown").strip) ])
  .obj [ ("mpls_lsps", .arr lsps),
         ("total_count", .n lsps.length),
         ("format", .s "structured") ]

/-- Parse RSVP session information (frontend variant). Total. -/
def parse_rsvp (root : XTree) : JVal :=
  let sessions := (root.findall "rsvp-session").map (fun ss => JVal.obj
    [ ("destination", .s (ss.findtextD ["session-dst-addr"] "Unknown").strip),
      ("state", .s (ss.findtextD ["session-state"] "Unknown").strip),
      ("uptime", .s (ss.findtextD ["uptime"] "Unknown").strip),
      ("name", .s (ss.findtextD ["session-name"] "").strip),
      ("type", .s (ss.findtextD ["session-type"] "Unknown").strip) ])
  .obj [ ("rsvp_sessions", .arr sessions),
         ("total_count", .n sessions.length),
         ("format", .s "structured") ]

/-- The name-based dispatch globals().get(config.parser): maps the
registered parser name to the parsing function; unknown names fall back to
the raw XML branch (none here). Parsers that cannot raise are wrapped as
ok. -/
def runParserByName (pname : String) (tree : XTree) : Option (Except String JVal) :=
  if pname = "parse_device_os" then some (.ok (parse_device_os tree))
  else if pname = "parse_interfaces" then some (parse_interfaces tree)
  else if pname = "parse_ospf" then some (.ok (parse_ospf tree))
  else if pname = "parse_bgp" then some (.ok (parse_bgp tree))
  else if pname = "parse_routes" then some (.ok (parse_routes tree))
  else if pname = "parse_ldp" then some (.ok (parse_ldp tree))
  else if pname = "parse_mpls" then some (.ok (parse_mpls tree))
  else if pname = "parse_rsvp" then some (.ok (parse_rsvp tree))
  else none

/-- validate_report_types: the list of requested ids not present in the
registry, and validity as emptiness of that list. -/
def validate_report_types (report_types : List String) : Bool × List String :=
  let invalid := report_types.filter (fun rt => (REPORT_REGISTRY.lookup rt).isNone)
  (invalid.length = 0, invalid)

/-- An error result dict of generate_report (timestamp omitted). -/
def feErrorResult (msg : String) : JVal :=
  .obj [("status", .s "error"), ("error", .s msg)]

/-- generate_report for one report type: unknown ids yield an error dict;
an RpcError yields an RPC error dict; a parser exception is caught by the
generic handler as an unexpected error; otherwise a success dict wrapping
the parsed data. -/
def generate_report (rpc : RpcOutcome) (report_type : String) : JVal :=
  match REPORT_REGISTRY.lookup report_type with
  | none => feErrorResult ("Unknown report type: " ++ report_type)
  | some cfg =>
    match rpc with
    | .rpcError m => feErrorResult ("RPC Error: " ++ m)
    | .otherError m => feErrorResult ("Unexpected error: " ++ m)
    | .success tree =>
      match runParserByName cfg.parser tree with
      | some (.error m) => feErrorResult ("Unexpected error: " ++ m)
      | some (.ok data) =>
          .obj [ ("status", .s "success"), ("name", .s cfg.name),
                 ("description", .s cfg.description), ("rpc", .s cfg.rpc),
                 ("data", data) ]
      | none =>
          .obj [ ("status", .s "success"), ("name", .s cfg.name),
                 ("description", .s cfg.description), ("rpc", .s cfg.rpc),
                 ("data", .obj [("raw_xml", .s (xmlStr tree)),
                                ("format", .s "xml")]) ]

/-- The per-device report loop of generate_reports_for_device. -/
def feReportLoop (exec : Nat → RpcOutcome) :
    Nat → List String → List (String × JVal) → List (String × JVal)
  | _, [], results => results
  | i, t :: ts, results =>
      feReportLoop exec (i + 1) ts (dictInsert results t (generate_report (exec i) t))

/-- Whether a result dict has a success status key. -/
def jIsSuccess (v : JVal) : Bool :=
  match v with
  | .obj fields =>
    match fields.lookup "status" with
    | some (.s st) => st == "success"
    | _ => false
  | _ => false

/-- Whether a result dict has an error status key. -/
def jIsError (v : JVal) : Bool :=
  match v with
  | .obj fields =>
    match fields.lookup "status" with
    | some (.s st) => st == "error"
    | _ => false
  | _ => false

/-- Observable outcome of generate_reports_for_device: the returned dict,
how many times device open was attempted, whether a session was opened,
and how many times close was invoked. -/
structure FeRunOutcome where
  record : JVal
  openAttempts : Nat
  opened : Bool
  closeCalls : Nat

/-- generate_reports_for_device: validates first (returning before any
device construction on failure), then opens the session, runs every
requested report, and closes in the finally block only when the device is
connected. -/
def generate_reports_for_device (hostname : String)
    (connect : Except String Facts) (exec : Nat → RpcOutcome)
    (report_types : List String) : FeRunOutcome :=
  let v := validate_report_types report_types
  if v.1 = false then
    { record := .obj [ ("hostname", .s hostname), ("status", .s "error"),
        ("error", .s ("Invalid report types: " ++ String.intercalate ", " v.2)),
        ("reports", .obj []) ],
      openAttempts := 0, opened := false, closeCalls := 0 }
  else
    match connect with
    | .error e =>
        { record := .obj [ ("hostname", .s hostname), ("status", .s "error"),
            ("error", .s ("Connection failed: " ++ e)),
            ("reports", .obj []) ],
          openAttempts := 1, opened := false, closeCalls := 0 }
    | .ok facts =>
        let results := feReportLoop exec 0 report_types []
        let succ := (results.filter (fun kv => jIsSuccess kv.2)).length
        let fail := (results.filter (fun kv => jIsError kv.2)).length
        { record := .obj [ ("hostname", .s hostname),
            ("device_info", .obj
              [ ("hostname", .s (factGet facts "hostname" hostname)),
                ("model", .s (factGet facts "model" "Unknown")),
                ("version", .s (factGet facts "version" "Unknown")),
                ("serial", .s (factGet facts "serialnumber" "Unknown")) ]),
            ("reports", .obj results),
            ("total_reports", .n report_types.length),
            ("successful", .n succ),
            ("failed", .n fail) ],
          openAttempts := 1, opened := true, closeCalls := 1 }

end ReportGenerator

namespace ReportsRouter

/-- One entry of the router-side report type list
(app_gateway/api/routers/reports.py). -/
structure RouterReportDef where
  id : String
  name : String
  description : String
  category : String
  command : String
  timeout : Nat

/-- The router-side available report types (a list, not a dict). -/
def REPORT_TYPES : List RouterReportDef :=
  [ ⟨"device_os", "Device OS", "Operating system version and hardware information",
      "System", "show version", 30⟩,
    ⟨"interfaces", "Interfaces", "Interface status and configuration summary",
      "Interfaces", "show interfaces", 45⟩,
    ⟨"interfaces_stats", "Interface Statistics",
      "Detailed interface statistics and error counters", "Interfaces",
      "show interfaces extensive", 60⟩,
    ⟨"ospf", "OSPF", "OSPF protocol status and neighbor information",
      "Protocols", "show ospf neighbor", 30⟩,
    ⟨"bgp", "BGP", "BGP protocol status and peer information",
      "Protocols", "show bgp summary", 30⟩,
    ⟨"routes", "Routes", "Routing table information",
      "Protocols", "show route", 45⟩,
    ⟨"ldp", "LDP", "LDP label distribution sessions",
      "MPLS", "show ldp session", 30⟩,
    ⟨"mpls", "MPLS LSPs", "MPLS label-switched path status",
      "MPLS", "show mpls lsp", 30⟩,
    ⟨"rsvp", "RSVP", "RSVP signaling sessions",
      "MPLS", "show rsvp session", 30⟩ ]

/-- The valid report ids derived from the router table. -/
def valid_report_ids : List String := REPORT_TYPES.map (fun rt => rt.id)

/-- The report generation request body. -/
structure ReportRequest where
  hostname : String
  username : String
  password : String
  report_types : List String

/-- An HTTPException raised by the endpoint: status code and detail. -/
structure HTTPError where
  status_code : Nat
  detail : String

/-- The background job queued by the endpoint: exactly the arguments passed
to execute_report_generation. -/
structure QueuedJob where
  job_id : String
  hostname : String
  username : String
  password : String
  report_types : List String

/-- The synchronous submission response plus the queued background task. -/
structure SubmitOk where
  job_id : String
  ws_channel : String
  status : String
  message : String
  total_reports : Nat
  queued : QueuedJob

/-- The generate endpoint: computes the invalid ids, rejects with a 400
before any task is queued when some id is invalid or when the list is
empty, and otherwise returns the job id, the channel name job:id, and
queues the background task. The job id (a fresh UUID in the source) is a
parameter. -/
def generate_reports (req : ReportRequest) (job_id : String) :
    Except HTTPError SubmitOk :=
  let invalid_types := req.report_types.filter
    (fun rt => !(valid_report_ids.contains rt))
  if invalid_types.isEmpty = false then
    .error ⟨400, "Invalid report types: " ++ String.intercalate ", " invalid_types⟩
  else if req.report_types.isEmpty then
    .error ⟨400, "At least one report type must be specified"⟩
  else
    .ok { job_id := job_id,
          ws_channel := "job:" ++ job_id,
          status := "queued",
          message := "Report generation started for "
            ++ toString req.report_types.length ++ " report types",
          total_reports := req.report_types.length,
          queued := ⟨job_id, req.hostname, req.username, req.password,
                     req.report_types⟩ }

end ReportsRouter

/-- Read a top-level field of a dict value. -/
def jField (v : JVal) (k : String) : Option JVal :=
  match v with
  | .obj fields => fields.lookup k
  | _ => none

/-- The progress value of one published event, when its data dict carries a
progress key. -/
def progressOf (e : ReportsService.Event) : Option Nat :=
  match e.data with
  | .obj fields =>
    match fields.lookup "progress" with
    | some (.n p) => some p
    | _ => none
  | _ => none

/-- The sequence of progress values carried by a list of events, in publish
order. -/
def progressValues (events : List ReportsService.Event) : List Nat :=
  events.filterMap progressOf

/-- The length of the routes list of a parsed routing report. -/
def routesLenOf (v : JVal) : Option Nat :=
  match jField v "routes" with
  | some (.arr l) => some l.length
  | _ => none

/-- The total_routes value of a parsed routing report (frontend key). -/
def totalRoutesOf (v : JVal) : Option Nat :=
  match jField v "total_routes" with
  | some (.n c) => some c
  | _ => none

/-- The total_count value of a parsed routing report (service key). -/
def totalCountOf (v : JVal) : Option Nat :=
  match jField v "total_count" with
  | some (.n c) => some c
  | _ => none

/-- The aggregate row count read off the summary fields of a routes
response: the sum of the route-count text of every route-table element,
read with the same digit conversion the code applies. -/
def summaryRouteCount (root : XTree) : Nat :=
  ((root.findall "route-table").map
    (fun tb => pyDigitsToNat (tb.findtextD ["route-count"] "0").strip)).sum

/-- A routes response with one summary table row claiming 150 routes and
101 enumerated route rows, each carrying one rt-entry row. -/
def routesTreeBig : XTree :=
  ⟨"route-information", none,
    ⟨"route-table", none,
      [ ⟨"table-name", some "inet.0", []⟩,
        ⟨"destination-count", some "150", []⟩,
        ⟨"route-count", some "150", []⟩ ]⟩
    :: List.replicate 101
        ⟨"route", none,
          [⟨"rt-entry", none, [⟨"rt-destination", some "10.0.0.0/24", []⟩]⟩]⟩⟩

/-- An interface response whose first physical interface carries a
logical-interface with an empty name element (present, no text). -/
def badItfTree : XTree :=
  ⟨"interface-information", none,
    [⟨"physical-interface", none,
      [ ⟨"name", some "ge-0/0/0", []⟩,
        ⟨"logical-interface", none, [⟨"name", none, []⟩]⟩ ]⟩]⟩

section HelperLemmas

/-- lookup fails exactly on keys outside the key list. -/
theorem lookup_eq_none_iff {α : Type} (l : List (String × α)) (a : String) :
    l.lookup a = none ↔ a ∉ l.map Prod.fst := by
  induction l with
  | nil => simp
  | cons kv rest ih =>
    obtain ⟨k, v⟩ := kv
    rw [List.map_cons, List.mem_cons, not_or]
    by_cases h : a = k
    · subst h
      simp [List.lookup]
    · have hbeq : (a == k) = false := by simpa using h
      simp only [List.lookup, hbeq, ih]
      exact (and_iff_right h).symm

/-- lookup succeeds exactly on keys of the key list. -/
theorem lookup_isSome_iff {α : Type} (l : List (String × α)) (a : String) :
    (l.lookup a).isSome = true ↔ a ∈ l.map Prod.fst := by
  rw [Option.isSome_iff_ne_none, ne_eq, lookup_eq_none_iff, not_not]

/-- Every entry of a dict after insertion comes from the dict or carries the
inserted value. -/
theorem mem_dictInsert {α : Type} (d : List (String × α)) (k : String) (v : α) :
    ∀ kv ∈ dictInsert d k v, kv ∈ d ∨ kv = (k, v) := by
  induction d with
  | nil =>
    intro kv hkv
    simp only [dictInsert, List.mem_singleton] at hkv
    exact Or.inr hkv
  | cons hd rest ih =>
    obtain ⟨k', v'⟩ := hd
    intro kv hkv
    by_cases h : k' = k
    · subst h
      simp only [dictInsert, if_pos rfl] at hkv
      rcases List.mem_cons.mp hkv with h1 | h1
      · exact Or.inr h1
      · exact Or.inl (List.mem_cons_of_mem _ h1)
    · simp only [dictInsert, if_neg h] at hkv
      rcases List.mem_cons.mp hkv with h1 | h1
      · exact Or.inl (h1 ▸ List.mem_cons_self _ _)
      · rcases ih kv h1 with h2 | h2
        · exact Or.inl (List.mem_cons_of_mem _ h2)
        · exact Or.inr h2

/-- Key set after dict insertion: the inserted key joins the key set. -/
theorem keys_dictInsert_toFinset {α : Type} (d : List (String × α)) (k : String)
    (v : α) :
    ((dictInsert d k v).map Prod.fst).toFinset
      = insert k (d.map Prod.fst).toFinset := by
  induction d with
  | nil => simp [dictInsert]
  | cons hd rest ih =>
    obtain ⟨k', v'⟩ := hd
    by_cases h : k' = k
    · subst h
      simp [dictInsert]
    · simp only [dictInsert, if_neg h, List.map_cons, List.toFinset_cons, ih]
      rw [Finset.Insert.comm]

/-- Dict insertion preserves key distinctness. -/
theorem keys_dictInsert_nodup {α : Type} (d : List (String × α)) (k : String)
    (v : α) (h : (d.map Prod.fst).Nodup) :
    ((dictInsert d k v).map Prod.fst).Nodup := by
  induction d with
  | nil => simp [dictInsert]
  | cons hd rest ih =>
    obtain ⟨k', v'⟩ := hd
    simp only [List.map_cons, List.nodup_cons] at h
    by_cases hk : k' = k
    · subst hk
      simpa [dictInsert] using h
    · simp only [dictInsert, if_neg hk, List.map_cons, List.nodup_cons]
      refine ⟨fun hmem => ?_, ih h.2⟩
      rw [← List.mem_toFinset, keys_dictInsert_toFinset, Finset.mem_insert,
        List.mem_toFinset] at hmem
      rcases hmem with h1 | h1
      · exact hk h1
      · exact h.1 h1

end HelperLemmas

/-- C5: validate_report_types returns as the invalid set exactly the
difference between the requested ids and the registry key set, and reports
the request valid if and only if that set is empty. -/
theorem C5_validate_is_set_difference (ids : List String) :
    ((ReportGenerator.validate_report_types ids).2.toFinset
        = ids.toFinset \ (ReportGenerator.REPORT_REGISTRY.map Prod.fst).toFinset)
    ∧ ((ReportGenerator.validate_report_types ids).1 = true
        ↔ (ReportGenerator.validate_report_types ids).2.toFinset = ∅) := by
  constructor
  · ext x
    simp only [ReportGenerator.validate_report_types, List.mem_toFinset,
      List.mem_filter, Finset.mem_sdiff, Option.isNone_iff_eq_none,
      decide_eq_true_iff, lookup_eq_none_iff]
  · simp only [ReportGenerator.validate_report_types, decide_eq_true_iff,
      List.length_eq_zero, List.toFinset_eq_empty_iff]

/-- C9 (amended): both channel names are deterministic functions of the job
id alone, but the channel returned at submission is job:id while the
channel events are published to is ws_channel:job:id, the returned name
with a ws_channel prefix prepended. -/
theorem C9_channels_deterministic_from_job_id
    (job_id hostname : String) (connect : Except String Facts)
    (exec : Nat → RpcOutcome) (types : List String) :
    (ReportsService.execute_report_generation job_id hostname connect exec
        types).channel = "ws_channel:job:" ++ job_id
    ∧ (∀ (req : ReportsRouter.ReportRequest) (ok : ReportsRouter.SubmitOk),
        ReportsRouter.generate_reports req job_id = .ok ok →
        ok.ws_channel = "job:" ++ job_id
        ∧ (ReportsService.execute_report_generation job_id hostname connect exec
            types).channel = "ws_channel:" ++ ok.ws_channel) := by
  have hch : (ReportsService.execute_report_generation job_id hostname connect exec
      types).channel = "ws_channel:job:" ++ job_id := by
    cases connect <;> rfl
  refine ⟨hch, fun req ok h => ?_⟩
  have hws : ok.ws_channel = "job:" ++ job_id := by
    simp only [ReportsRouter.generate_reports] at h
    by_cases h1 : (List.filter (fun rt => !ReportsRouter.valid_report_ids.contains rt)
        req.report_types).isEmpty = false
    · rw [if_pos h1] at h
      exact Except.noConfusion h
    · rw [if_neg h1] at h
      by_cases h2 : req.report_types.isEmpty = true
      · rw [if_pos h2] at h
        exact Except.noConfusion h
      · rw [if_neg h2] at h
        cases h
        rfl
  refine ⟨hws, ?_⟩
  rw [hws, hch, show ("ws_channel:job:" : String) = "ws_channel:" ++ "job:" from rfl,
    String.append_assoc]

/-- Witness for C9: at a concrete job id and request, the returned channel
is job:j1 and the publish channel is that name with the ws_channel prefix. -/
theorem C9_channels_witness :
    (ReportsService.execute_report_generation "j1" "r1" (Except.ok [])
        (fun _ => RpcOutcome.rpcError "x") ["bgp"]).channel
      = "ws_channel:" ++ "job:j1" := by
  have h := (C9_channels_deterministic_from_job_id "j1" "r1" (Except.ok [])
      (fun _ => RpcOutcome.rpcError "x") ["bgp"]).2
    ⟨"r1", "u", "p", ["bgp"]⟩
    ⟨"j1", "job:j1", "queued", "Report generation started for 1 report types", 1,
      ⟨"j1", "r1", "u", "p", ["bgp"]⟩⟩ rfl
  exact h.2

/-- Counterexample for C9 as stated: on job id j1 the submission response
names channel job:j1, the events are published to channel
ws_channel:job:j1, and those two strings are not the same channel name. -/
theorem C9_returned_channel_differs :
    (ReportsRouter.generate_reports ⟨"r1", "u", "p", ["bgp"]⟩ "j1")
        = Except.ok ⟨"j1", "job:j1", "queued",
            "Report generation started for 1 report types", 1,
            ⟨"j1", "r1", "u", "p", ["bgp"]⟩⟩
    ∧ (ReportsService.execute_report_generation "j1" "r1" (Except.ok [])
        (fun _ => RpcOutcome.rpcError "x") ["bgp"]).channel = "ws_channel:job:j1"
    ∧ ("job:j1" : String) ≠ "ws_channel:job:j1" := by
  refine ⟨rfl, rfl, by decide⟩

/-- C6: a request containing a report type id unknown to the registry is
rejected with a 400 before execution: the endpoint queues no job, and the
frontend generator returns before any device open attempt, with an empty
reports mapping. -/
theorem C6_invalid_id_rejected_pre_execution
    (req : ReportsRouter.ReportRequest) (job_id : String)
    (connect : Except String Facts) (exec : Nat → RpcOutcome)
    (h : ∃ rt ∈ req.report_types, rt ∉ ReportsRouter.valid_report_ids) :
    (∃ e : ReportsRouter.HTTPError,
        ReportsRouter.generate_reports req job_id = .error e ∧ e.status_code = 400)
    ∧ (∀ ok : ReportsRouter.SubmitOk,
        ReportsRouter.generate_reports req job_id ≠ .ok ok)
    ∧ (ReportGenerator.generate_reports_for_device req.hostname connect exec
        req.report_types).openAttempts = 0
    ∧ (ReportGenerator.generate_reports_for_device req.hostname connect exec
        req.report_types).opened = false
    ∧ jField (ReportGenerator.generate_reports_for_device req.hostname connect exec
        req.report_types).record "reports" = some (.obj []) := by
  obtain ⟨rt, hmem, hnot⟩ := h
  have hcont : ReportsRouter.valid_report_ids.contains rt = false := by
    cases hcon : ReportsRouter.valid_report_ids.contains rt with
    | false => rfl
    | true => exact absurd (List.elem_iff.mp hcon) hnot
  have hmemf : rt ∈ req.report_types.filter
      (fun x => !(ReportsRouter.valid_report_ids.contains x)) :=
    List.mem_filter.mpr ⟨hmem, by rw [hcont]; rfl⟩
  have hne : (req.report_types.filter
      (fun x => !(ReportsRouter.valid_report_ids.contains x))).isEmpty = false := by
    cases hfe : (req.report_types.filter
        (fun x => !(ReportsRouter.valid_report_ids.contains x))).isEmpty with
    | false => rfl
    | true =>
      rw [List.isEmpty_iff] at hfe
      exact absurd (hfe ▸ hmemf) (List.not_mem_nil rt)
  have hrouter : ReportsRouter.generate_reports req job_id
      = .error ⟨400, "Invalid report types: " ++ String.intercalate ", "
          (req.report_types.filter
            (fun x => !(ReportsRouter.valid_report_ids.contains x)))⟩ := by
    simp only [ReportsRouter.generate_reports]
    rw [if_pos hne]
  have hkeysEq : ReportGenerator.REPORT_REGISTRY.map Prod.fst
      = ReportsRouter.valid_report_ids := by decide
  have hlook : ReportGenerator.REPORT_REGISTRY.lookup rt = none :=
    (lookup_eq_none_iff _ _).mpr (by rw [hkeysEq]; exact hnot)
  have hmemf2 : rt ∈ req.report_types.filter
      (fun x => (ReportGenerator.REPORT_REGISTRY.lookup x).isNone) :=
    List.mem_filter.mpr ⟨hmem, by rw [hlook]; rfl⟩
  have hvalid : (ReportGenerator.validate_report_types req.report_types).1 = false := by
    simp only [ReportGenerator.validate_report_types]
    apply decide_eq_false
    intro hlen
    rw [List.length_eq_zero] at hlen
    exact absurd (hlen ▸ hmemf2) (List.not_mem_nil rt)
  have hfe : ReportGenerator.generate_reports_for_device req.hostname connect exec
      req.report_types
      = ⟨.obj [ ("hostname", .s req.hostname), ("status", .s "error"),
          ("error", .s ("Invalid report types: " ++ String.intercalate ", "
            (ReportGenerator.validate_report_types req.report_types).2)),
          ("reports", .obj []) ], 0, false, 0⟩ := by
    simp only [ReportGenerator.generate_reports_for_device]
    rw [if_pos hvalid]
  refine ⟨⟨_, hrouter, rfl⟩, ?_, ?_, ?_, ?_⟩
  · intro ok hok
    rw [hrouter] at hok
    exact Except.noConfusion hok
  · rw [hfe]
  · rw [hfe]
  · rw [hfe]
    simp [jField, List.lookup]

/-- Witness for C6: the request with the unregistered id bogus is rejected
with a 400 and the frontend generator never attempts a device open. -/
theorem C6_rejected_witness :
    (∃ e : ReportsRouter.HTTPError,
        ReportsRouter.generate_reports ⟨"r1", "u", "p", ["bogus"]⟩ "j2" = .error e
        ∧ e.status_code = 400)
    ∧ (ReportGenerator.generate_reports_for_device "r1" (Except.ok [])
        (fun _ => RpcOutcome.rpcError "x") ["bogus"]).openAttempts = 0 := by
  have h := C6_invalid_id_rejected_pre_execution ⟨"r1", "u", "p", ["bogus"]⟩ "j2"
    (Except.ok []) (fun _ => RpcOutcome.rpcError "x")
    ⟨"bogus", by decide, by decide⟩
  exact ⟨h.1, h.2.2.1⟩

/-- C4 (amended for the frontend parser): on any routes response with more
than 100 rt-entry rows the frontend parse_routes returns exactly 100 rows,
and reports as total_routes the sum of the summary route-count fields, not
the truncated length. -/
theorem C4_frontend_routes_cap (root : XTree)
    (h : 100 < (root.findall "rt-entry").length) :
    (∃ rows : List JVal,
        jField (ReportGenerator.parse_routes root) "routes" = some (.arr rows)
        ∧ rows.length = 100)
    ∧ totalRoutesOf (ReportGenerator.parse_routes root)
        = some (summaryRouteCount root) := by
  constructor
  · refine ⟨((root.findall "rt-entry").take 100).map ReportGenerator.feRouteRow,
      ?_, ?_⟩
    · simp [ReportGenerator.parse_routes, jField, List.lookup]
    · rw [List.length_map, List.length_take]
      exact Nat.min_eq_left (Nat.le_of_lt h)
  · simp only [ReportGenerator.parse_routes, totalRoutesOf, jField, List.lookup,
      summaryRouteCount, List.map_map]
    rfl

/-- Witness for C4 (amended): the concrete big routes response has 101
rt-entry rows; the frontend parser returns 100 rows and reports the summary
count 150. -/
theorem C4_frontend_routes_cap_witness :
    100 < (routesTreeBig.findall "rt-entry").length
    ∧ routesLenOf (ReportGenerator.parse_routes routesTreeBig) = some 100
    ∧ totalRoutesOf (ReportGenerator.parse_routes routesTreeBig) = some 150 := by
  have h := C4_frontend_routes_cap routesTreeBig (by decide)
  refine ⟨by decide, ?_, ?_⟩
  · obtain ⟨rows, hr, hlen⟩ := h.1
    simp only [routesLenOf, hr, hlen]
  · rw [h.2]
    rfl

/-- Counterexample for C4 as stated: the service parse_routes, on the same
response with more than 100 route rows, returns all 101 rows rather than
100, and reports total_count 101, the truncated-list length, rather than
the summary value 150. -/
theorem C4_service_routes_uncapped :
    100 < (routesTreeBig.findall "route").length
    ∧ routesLenOf (ReportsService.parse_routes routesTreeBig) = some 101
    ∧ totalCountOf (ReportsService.parse_routes routesTreeBig) = some 101
    ∧ summaryRouteCount routesTreeBig = 150 := by
  refine ⟨by decide, by rfl, by rfl, by rfl⟩

/-- C7: the frontend parse_interfaces raises an AttributeError on a tree
whose logical-interface carries a present but empty name element, instead
of substituting a default: the parser is not total. -/
theorem C7_parse_interfaces_raises_on_empty_logical_name :
    ReportGenerator.parse_interfaces badItfTree
      = .error "AttributeError: NoneType object has no attribute strip" := by
  rfl

/-- C8: whenever the session open succeeded, both execution paths invoke
the session close exactly once, on every exit path of the model. -/
theorem C8_close_called_once_when_opened
    (job_id hostname : String) (connect : Except String Facts)
    (exec : Nat → RpcOutcome) (types : List String)
    (fhost : String) (fconnect : Except String Facts)
    (fexec : Nat → RpcOutcome) (ftypes : List String) :
    ((ReportsService.execute_report_generation job_id hostname connect exec
        types).opened = true →
      (ReportsService.execute_report_generation job_id hostname connect exec
        types).closeCalls = 1)
    ∧ ((ReportGenerator.generate_reports_for_device fhost fconnect fexec
        ftypes).opened = true →
      (ReportGenerator.generate_reports_for_device fhost fconnect fexec
        ftypes).closeCalls = 1) := by
  constructor
  · intro _
    cases connect <;> rfl
  · intro hop
    by_cases hv : (ReportGenerator.validate_report_types ftypes).1 = false
    · simp only [ReportGenerator.generate_reports_for_device, if_pos hv] at hop
      exact Bool.noConfusion hop
    · simp only [ReportGenerator.generate_reports_for_device, if_neg hv] at hop ⊢
      cases fconnect with
      | error e => exact Bool.noConfusion hop
      | ok facts => rfl

/-- Witness for C8: on a concrete opened session, both paths record exactly
one close call. -/
theorem C8_close_witness :
    (ReportsService.execute_report_generation "j3" "r1" (Except.ok [])
        (fun _ => RpcOutcome.rpcError "x") ["bgp"]).closeCalls = 1
    ∧ (ReportGenerator.generate_reports_for_device "r1" (Except.ok [])
        (fun _ => RpcOutcome.rpcError "x") ["bgp"]).closeCalls = 1 := by
  have h := C8_close_called_once_when_opened "j3" "r1" (Except.ok [])
      (fun _ => RpcOutcome.rpcError "x") ["bgp"] "r1" (Except.ok [])
      (fun _ => RpcOutcome.rpcError "x") ["bgp"]
  exact ⟨h.1 rfl, h.2 rfl⟩

section LoopLemmas

open ReportsService

/-- The connecting event carries progress 5. -/
theorem progressOf_connecting (j h : String) :
    progressOf (connectingEvent j h) = some 5 := rfl

/-- The connected event carries progress 10. -/
theorem progressOf_connected (j h : String) (facts : Facts) :
    progressOf (connectedEvent j h facts) = some 10 := rfl

/-- The generating event carries the loop progress value. -/
theorem progressOf_generating (j t nm : String) (p : Nat) :
    progressOf (generatingEvent j t nm p) = some p := rfl

/-- The per-report completion event carries the loop progress value. -/
theorem progressOf_reportComplete (j t nm : String) (p : Nat) :
    progressOf (reportCompleteEvent j t nm p) = some p := rfl

/-- The finalizing event carries progress 90. -/
theorem progressOf_finalizing (j : String) :
    progressOf (finalizingEvent j) = some 90 := rfl

/-- The aggregate-results event carries no progress value. -/
theorem progressOf_finalComplete (j j2 h : String) (facts : Facts)
    (res : List (String × ReportResult)) (total succ fail : Nat) :
    progressOf (finalCompleteEvent j (finalResults j2 h facts res total succ fail))
      = none := rfl

/-- The finished event carries progress 100. -/
theorem progressOf_finished (j : String) (succ total : Nat) :
    progressOf (finishedEvent j succ total) = some 100 := rfl

/-- The outer error event carries no progress value. -/
theorem progressOf_error (j m : String) :
    progressOf (errorEvent j m) = none := rfl

/-- The loop progress allocation is monotone in the iteration index. -/
theorem loopProgress_mono (n i : Nat) :
    loopProgress n i ≤ loopProgress n (i + 1) := by
  unfold loopProgress
  have h70 : (i + 1) * 70 ≤ (i + 1 + 1) * 70 := Nat.mul_le_mul_right _ (by omega)
  exact Nat.add_le_add_left (Nat.div_le_div_right h70) 10

/-- The loop progress allocation never drops below the connected share. -/
theorem loopProgress_ge (n i : Nat) : 10 ≤ loopProgress n i :=
  Nat.le_add_right 10 _

/-- Within bounds, the loop progress allocation never exceeds 80. -/
theorem loopProgress_le (n i : Nat) (h : i + 1 ≤ n) : loopProgress n i ≤ 80 := by
  unfold loopProgress
  have h70 : (i + 1) * 70 ≤ n * 70 := Nat.mul_le_mul_right _ h
  have hdiv : (i + 1) * 70 / n ≤ n * 70 / n := Nat.div_le_div_right h70
  have hn : 0 < n := lt_of_lt_of_le (Nat.succ_pos i) h
  rw [Nat.mul_div_right _ hn] at hdiv
  omega

/-- A lower-bounded chain stays a chain after consing the bound. -/
theorem chain'_cons_of_all (a : Nat) (l : List Nat)
    (hc : List.Chain' (· ≤ ·) l) (hall : ∀ x ∈ l, a ≤ x) :
    List.Chain' (· ≤ ·) (a :: l) := by
  rw [List.chain'_cons']
  exact ⟨fun y hy => hall y (List.mem_of_mem_head? hy), hc⟩

/-- The progress skeleton of a completed job is a chain ending at 100: the
connect shares, then any chain of loop values between 10 and 80, then the
finalizing and finished shares. -/
theorem chain_assembled (l : List Nat) (hc : List.Chain' (· ≤ ·) l)
    (hb : ∀ x ∈ l, 10 ≤ x ∧ x ≤ 80) :
    List.Chain' (· ≤ ·) (5 :: 10 :: (l ++ [90, 100]))
    ∧ (5 :: 10 :: (l ++ [90, 100])).getLast? = some 100 := by
  constructor
  · have htail : List.Chain' (· ≤ ·) (l ++ [90, 100]) := by
      refine List.Chain'.append hc ?_ ?_
      · exact List.chain'_cons.mpr ⟨by omega, List.chain'_singleton 100⟩
      · intro x hx y hy
        have hxl : x ∈ l := List.mem_of_mem_getLast? hx
        have hyv : y = 90 := by
          simp only [List.head?_cons, Option.mem_def, Option.some.injEq] at hy
          omega
        have := (hb x hxl).2
        omega
    have h10 : List.Chain' (· ≤ ·) (10 :: (l ++ [90, 100])) := by
      refine chain'_cons_of_all 10 _ htail ?_
      intro x hx
      rcases List.mem_append.mp hx with h1 | h1
      · exact (hb x h1).1
      · rcases List.mem_cons.mp h1 with h2 | h2
        · omega
        · rcases List.mem_cons.mp h2 with h3 | h3
          · omega
          · exact absurd h3 (List.not_mem_nil x)
    exact List.chain'_cons.mpr ⟨by omega, h10⟩
  · have hsplit : 5 :: 10 :: (l ++ [90, 100])
        = (5 :: 10 :: (l ++ [90])) ++ [100] := by simp
    rw [hsplit, List.getLast?_concat]

/-- Success and error counts split the result list whenever every status is
one of the two. -/
theorem count_split (res : List (String × ReportResult))
    (h : ∀ kv ∈ res, kv.2.status = "success" ∨ kv.2.status = "error") :
    countSuccess res + countError res = res.length := by
  induction res with
  | nil => rfl
  | cons kv rest ih =>
    have hrest := fun x hx => h x (List.mem_cons_of_mem _ hx)
    have ih' := ih hrest
    rcases h kv (List.mem_cons_self _ _) with hs | he
    · have h1 : countSuccess (kv :: rest) = countSuccess rest + 1 := by
        simp [countSuccess, List.filter_cons, hs]
      have h2 : countError (kv :: rest) = countError rest := by
        simp [countError, List.filter_cons, hs]
      rw [h1, h2, List.length_cons]
      omega
    · have h1 : countSuccess (kv :: rest) = countSuccess rest := by
        simp [countSuccess, List.filter_cons, he]
      have h2 : countError (kv :: rest) = countError rest + 1 := by
        simp [countError, List.filter_cons, he]
      rw [h1, h2, List.length_cons]
      omega

/-- The report loop adds exactly the processed ids to the result keys. -/
theorem reportLoop_keys (job_id : String) (n : Nat) (exec : Nat → RpcOutcome) :
    ∀ (ts : List String) (i : Nat) (res : List (String × ReportResult)),
      (((reportLoop job_id n exec i ts res).2.map Prod.fst).toFinset
        = (res.map Prod.fst).toFinset ∪ ts.toFinset) := by
  intro ts
  induction ts with
  | nil =>
    intro i res
    simp [reportLoop]
  | cons t ts ih =>
    intro i res
    simp only [reportLoop]
    rcases hl : REPORT_TYPES.lookup t with _ | cfg
    · rw [ih, keys_dictInsert_toFinset]
      simp [Finset.insert_union, Finset.union_insert]
    · rcases he : exec i with tree | m | m <;>
        simp only [ih, keys_dictInsert_toFinset] <;>
        simp [Finset.insert_union, Finset.union_insert]

/-- The report loop preserves key distinctness of the result mapping. -/
theorem reportLoop_keys_nodup (job_id : String) (n : Nat) (exec : Nat → RpcOutcome) :
    ∀ (ts : List String) (i : Nat) (res : List (String × ReportResult)),
      (res.map Prod.fst).Nodup →
      ((reportLoop job_id n exec i ts res).2.map Prod.fst).Nodup := by
  intro ts
  induction ts with
  | nil =>
    intro i res h
    simpa [reportLoop] using h
  | cons t ts ih =>
    intro i res h
    simp only [reportLoop]
    rcases hl : REPORT_TYPES.lookup t with _ | cfg
    · exact ih _ _ (keys_dictInsert_nodup _ _ _ h)
    · rcases he : exec i with tree | m | m <;>
        exact ih _ _ (keys_dictInsert_nodup _ _ _ h)

/-- Every result the loop records has a success or an error status. -/
theorem reportLoop_status (job_id : String) (n : Nat) (exec : Nat → RpcOutcome) :
    ∀ (ts : List String) (i : Nat) (res : List (String × ReportResult)),
      (∀ kv ∈ res, kv.2.status = "success" ∨ kv.2.status = "error") →
      ∀ kv ∈ (reportLoop job_id n exec i ts res).2,
        kv.2.status = "success" ∨ kv.2.status = "error" := by
  intro ts
  induction ts with
  | nil =>
    intro i res h
    simpa [reportLoop] using h
  | cons t ts ih =>
    intro i res h
    simp only [reportLoop]
    have hstep : ∀ (v : ReportResult),
        (v.status = "success" ∨ v.status = "error") →
        ∀ kv ∈ dictInsert res t v,
          kv.2.status = "success" ∨ kv.2.status = "error" := by
      intro v hv kv hkv
      rcases mem_dictInsert _ _ _ kv hkv with h1 | h1
      · exact h kv h1
      · rw [h1]
        exact hv
    rcases hl : REPORT_TYPES.lookup t with _ | cfg
    · exact ih _ _ (hstep _ (Or.inr rfl))
    · rcases he : exec i with tree | m | m
      · exact ih _ _ (hstep _ (Or.inl rfl))
      · exact ih _ _ (hstep _ (Or.inr rfl))
      · exact ih _ _ (hstep _ (Or.inr rfl))

end LoopLemmas

/-- C10: a job run whose session opens reaches completion with a summary
whose total is the raw request length while successful plus failed counts
the distinct requested ids, so the two agree exactly on duplicate-free
requests; a request repeating bgp twice yields successful + failed = 1
against total = 2. -/
theorem C10_summary_counts (job_id hostname : String) (facts : Facts)
    (exec : Nat → RpcOutcome) (types : List String) :
    (ReportsService.execute_report_generation job_id hostname (.ok facts) exec
        types).state = .completed
    ∧ (ReportsService.execute_report_generation job_id hostname (.ok facts) exec
        types).summary
      = some (types.length,
          ReportsService.countSuccess (ReportsService.execute_report_generation
            job_id hostname (.ok facts) exec types).results,
          ReportsService.countError (ReportsService.execute_report_generation
            job_id hostname (.ok facts) exec types).results)
    ∧ ReportsService.countSuccess (ReportsService.execute_report_generation
          job_id hostname (.ok facts) exec types).results
        + ReportsService.countError (ReportsService.execute_report_generation
          job_id hostname (.ok facts) exec types).results
      = types.dedup.length
    ∧ (types.Nodup →
        ReportsService.countSuccess (ReportsService.execute_report_generation
            job_id hostname (.ok facts) exec types).results
          + ReportsService.countError (ReportsService.execute_report_generation
            job_id hostname (.ok facts) exec types).results
        = types.length)
    ∧ (ReportsService.execute_report_generation "j4" "r1" (Except.ok [])
          (fun _ => RpcOutcome.rpcError "boom") ["bgp", "bgp"]).summary
        = some (2, 0, 1)
    ∧ (0 + 1 : Nat) < 2 := by
  have hstat := reportLoop_status job_id types.length exec types 0 []
    (by intro kv h; exact absurd h (List.not_mem_nil kv))
  have hsum := count_split _ hstat
  have hkeys := reportLoop_keys job_id types.length exec types 0 []
  have hnodup := reportLoop_keys_nodup job_id types.length exec
    types 0 [] (by simp)
  have hlen : (ReportsService.reportLoop job_id types.length exec 0 types []).2.length
      = types.dedup.length := by
    have h1 : ((ReportsService.reportLoop job_id types.length exec 0 types []).2.map
        Prod.fst).length = (ReportsService.reportLoop job_id types.length exec 0
        types []).2.length := List.length_map _ _
    have h2 := List.toFinset_card_of_nodup hnodup
    rw [hkeys] at h2
    simp only [List.map_nil, List.toFinset_nil, Finset.empty_union] at h2
    have h3 : types.toFinset.card = types.dedup.length := rfl
    omega
  have hmain : ReportsService.countSuccess (ReportsService.execute_report_generation
        job_id hostname (.ok facts) exec types).results
      + ReportsService.countError (ReportsService.execute_report_generation
        job_id hostname (.ok facts) exec types).results
      = types.dedup.length := by
    show ReportsService.countSuccess
        (ReportsService.reportLoop job_id types.length exec 0 types []).2
      + ReportsService.countError
        (ReportsService.reportLoop job_id types.length exec 0 types []).2
      = types.dedup.length
    rw [hsum, hlen]
  refine ⟨rfl, rfl, hmain, ?_, rfl, by omega⟩
  intro hnd
  rw [hmain, List.dedup_eq_self.mpr hnd]

/-- Witness for C10: on a duplicate-free two-id request every id is counted
once and the counts add up to the total. -/
theorem C10_summary_witness :
    (ReportsService.execute_report_generation "j5" "r1" (Except.ok [])
        (fun _ => RpcOutcome.rpcError "e") ["bgp", "ospf"]).summary = some (2, 0, 2)
    ∧ ReportsService.countSuccess (ReportsService.execute_report_generation "j5" "r1"
        (Except.ok []) (fun _ => RpcOutcome.rpcError "e") ["bgp", "ospf"]).results
      + ReportsService.countError (ReportsService.execute_report_generation "j5" "r1"
        (Except.ok []) (fun _ => RpcOutcome.rpcError "e") ["bgp", "ospf"]).results
      = 2 := by
  have h := C10_summary_counts "j5" "r1" [] (fun _ => RpcOutcome.rpcError "e")
    ["bgp", "ospf"]
  exact ⟨rfl, h.2.2.2.1 (by decide)⟩

/-- C3 (amended): once a run completes, its result keys are exactly the
requested ids (unregistered requested ids included); a run that fails at
connection leaves an empty result mapping. -/
theorem C3_keys_match_requested (job_id hostname : String)
    (connect : Except String Facts) (exec : Nat → RpcOutcome)
    (types : List String) :
    ((ReportsService.execute_report_generation job_id hostname connect exec
        types).state = .completed →
      ((ReportsService.execute_report_generation job_id hostname connect exec
          types).results.map Prod.fst).toFinset = types.toFinset)
    ∧ ((ReportsService.execute_report_generation job_id hostname connect exec
        types).state = .failed →
      (ReportsService.execute_report_generation job_id hostname connect exec
          types).results = []) := by
  cases connect with
  | error e =>
    refine ⟨fun h => ?_, fun _ => rfl⟩
    exact absurd h (by simp [ReportsService.execute_report_generation])
  | ok facts =>
    refine ⟨fun _ => ?_, fun h => ?_⟩
    · show ((ReportsService.reportLoop job_id types.length exec 0 types []).2.map
          Prod.fst).toFinset = types.toFinset
      rw [reportLoop_keys job_id types.length exec types 0 []]
      simp
    · exact absurd h (by simp [ReportsService.execute_report_generation])

/-- Witness for C3 (amended): a completed single-id run has exactly that id
as its key set; a connection failure leaves no results. -/
theorem C3_keys_witness :
    ((ReportsService.execute_report_generation "j6" "r1" (Except.ok [])
        (fun _ => RpcOutcome.rpcError "x") ["bgp"]).results.map Prod.fst).toFinset
      = (["bgp"] : List String).toFinset
    ∧ (ReportsService.execute_report_generation "j6" "r1" (Except.error "down")
        (fun _ => RpcOutcome.rpcError "x") ["bgp"]).results = [] := by
  exact ⟨(C3_keys_match_requested "j6" "r1" (Except.ok [])
      (fun _ => RpcOutcome.rpcError "x") ["bgp"]).1 rfl,
    (C3_keys_match_requested "j6" "r1" (Except.error "down")
      (fun _ => RpcOutcome.rpcError "x") ["bgp"]).2 rfl⟩

/-- Counterexample for C3 as stated: requesting the unregistered id bogus
directly of the execution engine completes and records bogus as a key of
the result mapping, so an id absent from the registry can appear as a
result key. -/
theorem C3_unregistered_id_appears :
    ("bogus" ∉ ReportsService.REPORT_TYPES.map Prod.fst)
    ∧ (ReportsService.execute_report_generation "j7" "r1" (Except.ok [])
        (fun _ => RpcOutcome.rpcError "x") ["bogus"]).state = .completed
    ∧ ((ReportsService.execute_report_generation "j7" "r1" (Except.ok [])
        (fun _ => RpcOutcome.rpcError "x") ["bogus"]).results.map Prod.fst)
      = ["bogus"] := by
  exact ⟨by decide, rfl, rfl⟩

/-- C1: with a session open, the job completes for every RPC outcome
pattern; in the three-type instance where the executor fails exactly for
the middle id, that id alone records an error result, the two other ids
record success results computed only from their own response trees (the
failing id's error message appears nowhere in them), and the summary
counts 2 successes and 1 error. -/
theorem C1_per_report_isolation (job_id hostname : String) (facts : Facts)
    (a b c : String) (cfga cfgb cfgc : ReportsService.SvcReportDef)
    (ta tc : XTree) (m : String)
    (ha : ReportsService.REPORT_TYPES.lookup a = some cfga)
    (hb : ReportsService.REPORT_TYPES.lookup b = some cfgb)
    (hc : ReportsService.REPORT_TYPES.lookup c = some cfgc)
    (hab : a ≠ b) (hac : a ≠ c) (hbc : b ≠ c) :
    (∀ exec : Nat → RpcOutcome,
      (ReportsService.execute_report_generation job_id hostname (.ok facts) exec
        [a, b, c]).state = .completed)
    ∧ (ReportsService.execute_report_generation job_id hostname (.ok facts)
        (fun i => if i = 1 then RpcOutcome.rpcError m
          else if i = 0 then RpcOutcome.success ta else RpcOutcome.success tc)
        [a, b, c]).results
      = [ (a, ReportsService.successResult cfga a ta),
          (b, ReportsService.rpcErrorResult m),
          (c, ReportsService.successResult cfgc c tc) ]
    ∧ (ReportsService.execute_report_generation job_id hostname (.ok facts)
        (fun i => if i = 1 then RpcOutcome.rpcError m
          else if i = 0 then RpcOutcome.success ta else RpcOutcome.success tc)
        [a, b, c]).summary = some (3, 2, 1) := by
  have hloop : (ReportsService.reportLoop job_id ([a, b, c].length)
      (fun i => if i = 1 then RpcOutcome.rpcError m
        else if i = 0 then RpcOutcome.success ta else RpcOutcome.success tc)
      0 [a, b, c] []).2
      = [ (a, ReportsService.successResult cfga a ta),
          (b, ReportsService.rpcErrorResult m),
          (c, ReportsService.successResult cfgc c tc) ] := by
    simp only [ReportsService.reportLoop, ha, hb, hc]
    norm_num [dictInsert, hab, hac, hbc]
  refine ⟨fun exec => rfl, hloop, ?_⟩
  show some ([a, b, c].length, ReportsService.countSuccess
        (ReportsService.reportLoop job_id ([a, b, c].length)
          (fun i => if i = 1 then RpcOutcome.rpcError m
            else if i = 0 then RpcOutcome.success ta else RpcOutcome.success tc)
          0 [a, b, c] []).2,
      ReportsService.countError
        (ReportsService.reportLoop job_id ([a, b, c].length)
          (fun i => if i = 1 then RpcOutcome.rpcError m
            else if i = 0 then RpcOutcome.success ta else RpcOutcome.success tc)
          0 [a, b, c] []).2) = some (3, 2, 1)
  rw [hloop]
  rfl

/-- Witness for C1: three registered types with the middle RPC failing give
a completed job with 2 successes and 1 error. -/
theorem C1_isolation_witness :
    (ReportsService.execute_report_generation "j8" "r1" (Except.ok [])
        (fun i => if i = 1 then RpcOutcome.rpcError "boom"
          else if i = 0 then RpcOutcome.success ⟨"software-information", none, []⟩
          else RpcOutcome.success ⟨"ospf-information", none, []⟩)
        ["device_os", "bgp", "ospf"]).summary = some (3, 2, 1)
    ∧ (ReportsService.execute_report_generation "j8" "r1" (Except.ok [])
        (fun i => if i = 1 then RpcOutcome.rpcError "boom"
          else if i = 0 then RpcOutcome.success ⟨"software-information", none, []⟩
          else RpcOutcome.success ⟨"ospf-information", none, []⟩)
        ["device_os", "bgp", "ospf"]).state = ReportsService.JobState.completed := by
  have h := C1_per_report_isolation "j8" "r1" [] "device_os" "bgp" "ospf"
    ⟨"device_os", "Device OS", "get-software-information", [], 30⟩
    ⟨"bgp", "BGP", "get-bgp-summary-information", [], 30⟩
    ⟨"ospf", "OSPF", "get-ospf-neighbor-information", [], 30⟩
    ⟨"software-information", none, []⟩ ⟨"ospf-information", none, []⟩ "boom"
    rfl rfl rfl (by decide) (by decide) (by decide)
  exact ⟨h.2.2, h.1 _⟩

/-- The values and bounds of the loop's emitted progress events: a chain
whose members lie between the current allocation and 80. -/
theorem reportLoop_progress_facts (job_id : String) (n : Nat)
    (exec : Nat → RpcOutcome) :
    ∀ (ts : List String) (i : Nat)
      (res : List (String × ReportsService.ReportResult)),
      i + ts.length ≤ n →
      List.Chain' (· ≤ ·)
        (progressValues (ReportsService.reportLoop job_id n exec i ts res).1)
      ∧ (∀ x ∈ progressValues (ReportsService.reportLoop job_id n exec i ts res).1,
          ReportsService.loopProgress n i ≤ x ∧ x ≤ 80) := by
  intro ts
  induction ts with
  | nil =>
    intro i res _
    constructor
    · simp [ReportsService.reportLoop, progressValues]
    · intro x hx
      simp [ReportsService.reportLoop, progressValues] at hx
  | cons t ts ih =>
    intro i res h
    have hlen : i + 1 + ts.length ≤ n := by
      rw [List.length_cons] at h
      omega
    have hbound : i + 1 ≤ n := by
      rw [List.length_cons] at h
      omega
    have hmono := loopProgress_mono n i
    simp only [ReportsService.reportLoop]
    rcases hl : ReportsService.REPORT_TYPES.lookup t with _ | cfg
    · obtain ⟨ihc, ihb⟩ := ih (i + 1) (dictInsert res t (ReportsService.unknownResult t)) hlen
      exact ⟨ihc, fun x hx => ⟨le_trans hmono (ihb x hx).1, (ihb x hx).2⟩⟩
    · rcases he : exec i with tree | m | m
      · obtain ⟨ihc, ihb⟩ := ih (i + 1)
          (dictInsert res t (ReportsService.successResult cfg t tree)) hlen
        have hvals : progressValues
            (ReportsService.generatingEvent job_id t cfg.name
                (ReportsService.loopProgress n i)
              :: ReportsService.reportCompleteEvent job_id t cfg.name
                (ReportsService.loopProgress n i)
              :: (ReportsService.reportLoop job_id n exec (i + 1) ts
                  (dictInsert res t (ReportsService.successResult cfg t tree))).1)
            = ReportsService.loopProgress n i :: ReportsService.loopProgress n i
              :: progressValues (ReportsService.reportLoop job_id n exec (i + 1) ts
                  (dictInsert res t (ReportsService.successResult cfg t tree))).1 := by
          simp [progressValues, List.filterMap_cons, progressOf_generating,
            progressOf_reportComplete]
        rw [hvals]
        constructor
        · refine List.chain'_cons.mpr ⟨le_refl _, ?_⟩
          refine chain'_cons_of_all _ _ ihc ?_
          intro x hx
          exact le_trans hmono (ihb x hx).1
        · intro x hx
          rcases List.mem_cons.mp hx with h1 | h1
          · subst h1
            exact ⟨le_refl _, loopProgress_le n i hbound⟩
          · rcases List.mem_cons.mp h1 with h2 | h2
            · subst h2
              exact ⟨le_refl _, loopProgress_le n i hbound⟩
            · exact ⟨le_trans hmono (ihb x h2).1, (ihb x h2).2⟩
      · obtain ⟨ihc, ihb⟩ := ih (i + 1)
          (dictInsert res t (ReportsService.rpcErrorResult m)) hlen
        have hvals : progressValues
            (ReportsService.generatingEvent job_id t cfg.name
                (ReportsService.loopProgress n i)
              :: (ReportsService.reportLoop job_id n exec (i + 1) ts
                  (dictInsert res t (ReportsService.rpcErrorResult m))).1)
            = ReportsService.loopProgress n i
              :: progressValues (ReportsService.reportLoop job_id n exec (i + 1) ts
                  (dictInsert res t (ReportsService.rpcErrorResult m))).1 := by
          simp [progressValues, List.filterMap_cons, progressOf_generating]
        rw [hvals]
        constructor
        · refine chain'_cons_of_all _ _ ihc ?_
          intro x hx
          exact le_trans hmono (ihb x hx).1
        · intro x hx
          rcases List.mem_cons.mp hx with h1 | h1
          · subst h1
            exact ⟨le_refl _, loopProgress_le n i hbound⟩
          · exact ⟨le_trans hmono (ihb x h1).1, (ihb x h1).2⟩
      · obtain ⟨ihc, ihb⟩ := ih (i + 1)
          (dictInsert res t (ReportsService.otherErrorResult m)) hlen
        have hvals : progressValues
            (ReportsService.generatingEvent job_id t cfg.name
                (ReportsService.loopProgress n i)
              :: (ReportsService.reportLoop job_id n exec (i + 1) ts
                  (dictInsert res t (ReportsService.otherErrorResult m))).1)
            = ReportsService.loopProgress n i
              :: progressValues (ReportsService.reportLoop job_id n exec (i + 1) ts
                  (dictInsert res t (ReportsService.otherErrorResult m))).1 := by
          simp [progressValues, List.filterMap_cons, progressOf_generating]
        rw [hvals]
        constructor
        · refine chain'_cons_of_all _ _ ihc ?_
          intro x hx
          exact le_trans hmono (ihb x hx).1
        · intro x hx
          rcases List.mem_cons.mp hx with h1 | h1
          · subst h1
            exact ⟨le_refl _, loopProgress_le n i hbound⟩
          · exact ⟨le_trans hmono (ihb x h1).1, (ihb x h1).2⟩

/-- C2: the progress values one job publishes form a non-decreasing
sequence; the sequence ends at 100 exactly when the job completes, and a
job that fails (connection failure) never publishes 100. -/
theorem C2_progress_monotone_terminal (job_id hostname : String)
    (connect : Except String Facts) (exec : Nat → RpcOutcome)
    (types : List String) :
    List.Chain' (· ≤ ·)
      (progressValues (ReportsService.execute_report_generation job_id hostname
        connect exec types).events)
    ∧ ((ReportsService.execute_report_generation job_id hostname connect exec
        types).state = .completed
      ↔ (progressValues (ReportsService.execute_report_generation job_id hostname
          connect exec types).events).getLast? = some 100)
    ∧ ((ReportsService.execute_report_generation job_id hostname connect exec
        types).state = .failed →
      100 ∉ progressValues (ReportsService.execute_report_generation job_id
        hostname connect exec types).events) := by
  cases connect with
  | error e =>
    have hvals : progressValues (ReportsService.execute_report_generation job_id
        hostname (.error e) exec types).events = [5] := by
      show progressValues [ReportsService.connectingEvent job_id hostname,
        ReportsService.errorEvent job_id ("Failed to connect to device: " ++ e)] = [5]
      simp [progressValues, List.filterMap_cons, progressOf_connecting,
        progressOf_error]
    refine ⟨?_, ?_, ?_⟩
    · rw [hvals]
      exact List.chain'_singleton 5
    · rw [hvals]
      constructor
      · intro hcomp
        exact absurd hcomp (fun hf => ReportsService.JobState.noConfusion hf)
      · intro hlast
        exact absurd hlast (by decide)
    · intro _
      rw [hvals]
      decide
  | ok facts =>
    have hfacts := reportLoop_progress_facts job_id types.length exec types 0 []
      (by omega)
    have hb : ∀ x ∈ progressValues
        (ReportsService.reportLoop job_id types.length exec 0 types []).1,
        10 ≤ x ∧ x ≤ 80 := by
      intro x hx
      exact ⟨le_trans (loopProgress_ge types.length 0) (hfacts.2 x hx).1,
        (hfacts.2 x hx).2⟩
    have hassm := chain_assembled _ hfacts.1 hb
    have hvals : progressValues (ReportsService.execute_report_generation job_id
        hostname (.ok facts) exec types).events
        = 5 :: 10 :: (progressValues
            (ReportsService.reportLoop job_id types.length exec 0 types []).1
          ++ [90, 100]) := by
      show progressValues (ReportsService.connectingEvent job_id hostname
          :: ReportsService.connectedEvent job_id hostname facts
          :: (ReportsService.reportLoop job_id types.length exec 0 types []).1
          ++ [ ReportsService.finalizingEvent job_id,
               ReportsService.finalCompleteEvent job_id
                 (ReportsService.finalResults job_id hostname facts
                   (ReportsService.reportLoop job_id types.length exec 0 types []).2
                   types.length
                   (ReportsService.countSuccess
                     (ReportsService.reportLoop job_id types.length exec 0
                       types []).2)
                   (ReportsService.countError
                     (ReportsService.reportLoop job_id types.length exec 0
                       types []).2)),
               ReportsService.finishedEvent job_id
                 (ReportsService.countSuccess
                   (ReportsService.reportLoop job_id types.length exec 0
                     types []).2)
                 types.length ]) = _
      simp [progressValues, List.filterMap_cons, List.filterMap_append,
        progressOf_connecting, progressOf_connected, progressOf_finalizing,
        progressOf_finalComplete, progressOf_finished]
    refine ⟨?_, ?_, ?_⟩
    · rw [hvals]
      exact hassm.1
    · rw [hvals]
      exact iff_of_true rfl hassm.2
    · intro hf
      exact absurd hf (fun hf2 => ReportsService.JobState.noConfusion hf2)

/-- Witness for C5: on a concrete request with one unknown id the invalid
set is exactly the difference and the request is reported invalid. -/
theorem C5_validate_witness :
    ((ReportGenerator.validate_report_types ["bgp", "bogus"]).2.toFinset
      = (["bgp", "bogus"] : List String).toFinset
        \ (ReportGenerator.REPORT_REGISTRY.map Prod.fst).toFinset)
    ∧ (ReportGenerator.validate_report_types ["bgp", "bogus"]).1 = false := by
  have h := C5_validate_is_set_difference ["bgp", "bogus"]
  exact ⟨h.1, by decide⟩

/-- Witness for C2: a concrete completed job's progress ends at 100, and a
concrete connection-failed job never publishes 100. -/
theorem C2_progress_witness :
    (progressValues (ReportsService.execute_report_generation "j9" "r1"
        (Except.ok []) (fun _ => RpcOutcome.rpcError "x") ["bgp"]).events).getLast?
      = some 100
    ∧ 100 ∉ progressValues (ReportsService.execute_report_generation "j9" "r1"
        (Except.error "down") (fun _ => RpcOutcome.rpcError "x") ["bgp"]).events := by
  have h1 := (C2_progress_monotone_terminal "j9" "r1" (Except.ok [])
    (fun _ => RpcOutcome.rpcError "x") ["bgp"]).2.1.mp rfl
  have h2 := (C2_progress_monotone_terminal "j9" "r1" (Except.error "down")
    (fun _ => RpcOutcome.rpcError "x") ["bgp"]).2.2 rfl
  exact ⟨h1, h2⟩
